import Mathlib

/-!
Verification of the iris-v4 agent platform core against its specification.

Each section shallowly embeds one source module:

* `CustomToolAgent` — `src/bot/langgraph_agents/custom_tool_agent.py`
  (the model↔tool loop, the history window and tool-output truncation).
* `AgentManagerM` — `src/bot/core/agent_manager.py`
  (the Telegram credential-injection tool wrapper and its debug logging).
* `ChatManagerM` — `src/agent/agent_api/core/chat_manager.py`
  (message insertion and the summary stride).
* `AgentsRoute` — `src/agent/agent-api/api/routes/agents.py`
  (the list and delete HTTP handlers) together with the store-level
  behaviour of `src/agent/agent_api/db/postgres_manager.py`.
* `ConnManager` — `src/agent/ws_api/utils/connection_manager.py`
  (the broadcaster's subscriber bookkeeping).

Python-standard-library behaviour that the sources call but do not define
(`json.loads`, `str()` rendering of parsed JSON values, float `:.2f`
formatting, the `<tool-use>` regex substitution) is kept opaque: the
embedded functions take it as an explicit function argument, and every
theorem quantifies over it.
-/

namespace CustomToolAgent

/-- Model of a parsed JSON value as produced by Python's `json.loads`:
objects keep their key order as an association list, numbers keep their
textual representation (the sources only ever render them back to text). -/
inductive Json where
  | null : Json
  | bool (b : Bool) : Json
  | num (lit : String) : Json
  | str (s : String) : Json
  | arr (elems : List Json) : Json
  | obj (fields : List (String × Json)) : Json

/-- Python `d.get(key)` on a parsed JSON object (first binding wins,
as in a Python dict, which cannot hold duplicate keys). -/
def jlookup (key : String) : List (String × Json) → Option Json
  | [] => none
  | (k, v) :: rest => if k = key then some v else jlookup key rest

/-- MAX_HISTORY_MESSAGES from `custom_tool_agent.py` line 22. -/
def MAX_HISTORY_MESSAGES : Nat := 10

/-- MAX_TOOL_OUTPUT_CHARS from `custom_tool_agent.py` line 25. -/
def MAX_TOOL_OUTPUT_CHARS : Nat := 1500

/-- Python `"; ".join`-style list joining. -/
def joinSep (sep : String) : List String → String
  | [] => ""
  | [x] => x
  | x :: rest => x ++ sep ++ joinSep sep rest

/-- Headline extraction for one entry of the `articles` array:
`art.get("headline", "No headline")` rendered into the joined summary
string.  `pyStr` stands for Python's `str()` on a parsed JSON value
(a non-string headline would make this rendering; Python itself would
raise a TypeError inside `join`, which the enclosing caller turns into
a tool error message — outside every claim's scope). -/
def headlineOf (pyStr : Json → String) : Json → String
  | Json.obj fields =>
      match jlookup "headline" fields with
      | some v => pyStr v
      | none => "No headline"
  | _ => "No headline"

/-- The `articles` branch of `_truncate_tool_output` (lines 42-47). -/
def articlesSummary (pyStr : Json → String) (fields : List (String × Json))
    (articles : List Json) : String :=
  let headlines := (articles.take 5).map (headlineOf pyStr)
  let count :=
    match jlookup "news_count" fields with
    | some v => pyStr v
    | none => toString articles.length
  let base := "Found " ++ count ++ " news articles. Top headlines: " ++
    joinSep "; " headlines
  if articles.length > 5 then
    base ++ " (and " ++ toString (articles.length - 5) ++ " more...)"
  else base

/-- One entry of the `data` dict in the stocks branch (lines 52-56):
`fmt2` stands for Python's `"{:.2f}".format` on the stored number. -/
def stockEntry (fmt2 : String → String) (symbol : String) : Json → String
  | Json.obj dataFields =>
      match jlookup "status" dataFields, jlookup "current_price" dataFields with
      | some (Json.str "success"), some (Json.num priceLit) =>
          symbol ++ ": " ++ fmt2 priceLit
      | _, _ => symbol ++ ": Error or N/A"
  | _ => symbol ++ ": Error or N/A"

/-- The `data` branch of `_truncate_tool_output` (lines 50-57). -/
def stocksSummary (fmt2 : String → String)
    (dataFields : List (String × Json)) : String :=
  let summaries := dataFields.map (fun kv => stockEntry fmt2 kv.1 kv.2)
  "Fetched quotes for " ++ toString dataFields.length ++ " stocks: " ++
    joinSep ", " summaries

/-- Whether a parsed value takes the `articles` branch:
`isinstance(json_output, dict) and "articles" in json_output and
isinstance(json_output["articles"], list)` (line 42). -/
def articlesShape : Json → Option (List (String × Json) × List Json)
  | Json.obj fields =>
      match jlookup "articles" fields with
      | some (Json.arr articles) => some (fields, articles)
      | _ => none
  | _ => none

/-- Whether a parsed value takes the `data` branch:
`isinstance(json_output, dict) and "data" in json_output and
isinstance(json_output["data"], dict)` (line 50). -/
def dataShape : Json → Option (List (String × Json))
  | Json.obj fields =>
      match jlookup "data" fields with
      | some (Json.obj dataFields) => some dataFields
      | _ => none
  | _ => none

/-- Shallow embedding of `_truncate_tool_output` (lines 30-68), for a tool
output that is already a string (`str(output)` is then the identity).
`parse` stands for `json.loads` (returning `none` on `JSONDecodeError`),
`pyStr` for Python `str()` on parsed values and `fmt2` for `:.2f`
formatting; all three are standard-library behaviour kept opaque. -/
def truncate_tool_output (parse : String → Option Json)
    (pyStr : Json → String) (fmt2 : String → String)
    (output_str : String) (max_chars : Nat := MAX_TOOL_OUTPUT_CHARS) : String :=
  match parse output_str with
  | some json_output =>
      match articlesShape json_output with
      | some (fields, articles) => articlesSummary pyStr fields articles
      | none =>
          match dataShape json_output with
          | some dataFields => stocksSummary fmt2 dataFields
          | none =>
              if output_str.length > max_chars then
                "Large JSON output (truncated): " ++
                  output_str.take (max_chars / 2) ++ "..." ++
                  output_str.drop (output_str.length - max_chars / 2)
              else output_str
  | none =>
      if output_str.length > max_chars then
        output_str.take max_chars ++ "... (truncated)"
      else output_str

/-- One entry of an `AIMessage.tool_calls` list: the source reads it as a
dict via `.get('name')`, `.get('args', {})`, `.get('id')` (lines 134-137),
so `name` and `id` may be absent. -/
structure ToolCall where
  id : Option String
  name : Option String
  args : Json

/-- Conversation messages: LangChain's `SystemMessage`, `HumanMessage`,
`AIMessage` (content plus tool calls) and `ToolMessage`. -/
inductive Msg where
  | system (content : String) : Msg
  | human (content : String) : Msg
  | ai (content : String) (tool_calls : List ToolCall) : Msg
  | tool (content : String) (tool_call_id : Option String) : Msg

/-- A bound tool: its declared name and its invocation behaviour
(`await tool_to_call.ainvoke(tool_args)`, stringified result), opaque to
the runtime. -/
structure ToolDef where
  name : String
  run : Json → String

/-- The model's reply to one prompt: `response.content` and
`response.tool_calls`.  The `ModelClient` itself is an external
capability, so the loop is parameterised over this function. -/
structure ModelResp where
  content : String
  tool_calls : List ToolCall

/-- Everything `create_custom_tool_agent` closes over: the LLM (`model`),
the bound `tools`, the `system_prompt`, plus the opaque standard-library
behaviour (`clean` for the `TOOL_USE_TAG_REGEX` substitution-and-strip,
`parse`/`pyStr`/`fmt2` for the JSON handling inside truncation). -/
structure RunEnv where
  model : List Msg → ModelResp
  tools : List ToolDef
  system_prompt : String
  clean : String → String
  parse : String → Option Json
  pyStr : Json → String
  fmt2 : String → String

/-- The sliding window of `call_model` (line 99):
`messages[-(MAX_HISTORY_MESSAGES - 1):] if len(messages) >
(MAX_HISTORY_MESSAGES - 1) else messages`. -/
def window (messages : List Msg) : List Msg :=
  if messages.length > MAX_HISTORY_MESSAGES - 1 then
    messages.drop (messages.length - (MAX_HISTORY_MESSAGES - 1))
  else messages

/-- The prompt assembled by `call_model` (line 102):
`[SystemMessage(content=system_prompt)] + recent_messages`. -/
def full_messages (system_prompt : String) (messages : List Msg) : List Msg :=
  Msg.system system_prompt :: window messages

/-- The `call_model` node (lines 89-117): invoke the model on the windowed
prompt, then clean a non-empty reply content of `<tool-use>` tags. -/
def call_model (env : RunEnv) (messages : List Msg) : Msg :=
  let response := env.model (full_messages env.system_prompt messages)
  let content :=
    if response.content ≠ "" then env.clean response.content
    else response.content
  Msg.ai content response.tool_calls

/-- The `call_tool` node (lines 120-168): execute each requested call in
declaration order, skipping entries without a name, recording a
`Tool not found` message for unknown names, and truncating each output. -/
def call_tool (env : RunEnv) (messages : List Msg) : List Msg :=
  match messages.getLast? with
  | some (Msg.ai _ tool_calls) =>
      tool_calls.filterMap (fun tc =>
        match tc.name with
        | none => none
        | some tname =>
            match env.tools.find? (fun t => t.name = tname) with
            | some t =>
                some (Msg.tool
                  (truncate_tool_output env.parse env.pyStr env.fmt2
                    (t.run tc.args)) tc.id)
            | none =>
                some (Msg.tool ("Tool \x27" ++ tname ++ "\x27 not found.")
                  tc.id))
  | _ => []

/-- The conditional edge `should_continue` (lines 171-184): continue to
`call_tool` exactly when the last message is an AI message with tool
calls; otherwise end. -/
def should_continue (messages : List Msg) : String :=
  match messages.getLast? with
  | some (Msg.ai _ tool_calls) =>
      if tool_calls.isEmpty then "end" else "continue"
  | _ => "end"

/-- The compiled graph (lines 186-209): start at `call_model`; on
`should_continue = "continue"` run `call_tool` and return to `call_model`,
otherwise end.  `fuel` bounds how many `call_model` rounds we are willing
to observe; `none` means the loop was still running after that many. -/
def runAgent (env : RunEnv) : Nat → List Msg → Option (List Msg)
  | 0, _ => none
  | fuel + 1, messages =>
      let messages2 := messages ++ [call_model env messages]
      if should_continue messages2 = "continue" then
        runAgent env fuel (messages2 ++ call_tool env messages2)
      else some messages2

/-- Environment whose model answers every prompt with a tool call for a
tool that is not bound: the worst case for the round-trip bound claimed
by the specification. -/
def alwaysToolEnv : RunEnv where
  model := fun _ => ⟨"", [⟨some "id1", some "missing_tool", Json.obj []⟩]⟩
  tools := []
  system_prompt := "sys"
  clean := fun s => s
  parse := fun _ => none
  pyStr := fun _ => ""
  fmt2 := fun s => s

/-- Environment whose model immediately answers with plain text. -/
def noToolEnv : RunEnv where
  model := fun _ => ⟨"done", []⟩
  tools := []
  system_prompt := "sys"
  clean := fun s => s
  parse := fun _ => none
  pyStr := fun _ => ""
  fmt2 := fun s => s

end CustomToolAgent

namespace ChatManagerM

/-- SUMMARY_STRIDE: the literal `10` of `chat_manager.py` line 175. -/
def SUMMARY_STRIDE : Nat := 10

/-- A stored chat message, reduced to the fields `add_message` reads back
through `get_chat_messages` (which returns every stored row of the
session, partial or not, in timestamp order). -/
structure ChatMessage where
  role : String
  content : String
  isPartial : Bool
deriving DecidableEq

/-- A stored `ChatSummary` row: `summary_text` and `message_count` as
upserted by `save_chat_summary`. -/
structure ChatSummary where
  summary_text : String
  message_count : Nat
deriving DecidableEq

/-- The per-session slice of the database that `add_message` touches:
the session's message rows and its (at most one) summary row. -/
structure SessionState where
  session_id : String
  messages : List ChatMessage
  summary : Option ChatSummary
deriving DecidableEq

/-- The summary text written at line 176:
`f"Auto-generated summary at {msg_count} messages for session {session_id}."` -/
def autoSummaryText (session_id : String) (msg_count : Nat) : String :=
  "Auto-generated summary at " ++ toString msg_count ++
    " messages for session " ++ session_id ++ "."

/-- Shallow embedding of `ChatManager.add_message` (lines 130-208): insert
the row; then, only when the new row is not partial, count the session's
stored messages (`len(await self.db.get_chat_messages(session_id))` —
partials included) and when that count is a positive multiple of 10 upsert
the summary with exactly that count. -/
def add_message (st : SessionState) (role content : String)
    (isPartial : Bool) : SessionState :=
  let messages2 := st.messages ++ [⟨role, content, isPartial⟩]
  if isPartial then { st with messages := messages2 }
  else
    let msg_count := messages2.length
    if 0 < msg_count ∧ msg_count % 10 = 0 then
      { st with
        messages := messages2
        summary := some ⟨autoSummaryText st.session_id msg_count, msg_count⟩ }
    else { st with messages := messages2 }

/-- The session's count of non-partial messages (what the claim says the
stride should be measured against). -/
def countNonPartial (messages : List ChatMessage) : Nat :=
  (messages.filter (fun m => !m.isPartial)).length

/-- Concrete scenario used against claim C3: eight non-partial messages,
one streamed partial, then one more non-partial message. -/
def c3State : SessionState :=
  let st8 := (List.range 8).foldl
    (fun st _ => add_message st "user" "m" false) ⟨"s1", [], none⟩
  add_message (add_message st8 "agent" "p" true) "agent" "f" false

end ChatManagerM

namespace AgentManagerM

/-- A Python scalar as it occurs in the wrapper's keyword arguments:
`telegram_api_id` is an `int`, everything else a `str`. -/
inductive PyVal where
  | int (n : Int)
  | str (s : String)
deriving DecidableEq

/-- Python `repr` of such a scalar, as rendered inside an f-string
formatting of a dict. -/
def pyRepr : PyVal → String
  | .int n => toString n
  | .str s => "\x27" ++ s ++ "\x27"

/-- Python `str()` of a kwargs dict, as the f-string at
`agent_manager.py` line 126 renders `all_kwargs`. -/
def dictRepr (d : List (String × PyVal)) : String :=
  "\x7b" ++
    CustomToolAgent.joinSep ", "
      (d.map (fun kv => "\x27" ++ kv.1 ++ "\x27: " ++ pyRepr kv.2)) ++
    "\x7d"

/-- Python dict assignment `d[key] = v`: replace in place when the key
exists, otherwise append (dicts preserve insertion order). -/
def dictSet (d : List (String × PyVal)) (key : String) (v : PyVal) :
    List (String × PyVal) :=
  if d.any (fun kv => kv.1 = key) then
    d.map (fun kv => if kv.1 = key then (key, v) else kv)
  else d ++ [(key, v)]

/-- Python `d.get(key)`: the value bound to the key, if any. -/
def dictGet : List (String × PyVal) → String → Option PyVal
  | [], _ => none
  | kv :: rest, key => if kv.1 = key then some kv.2 else dictGet rest key

/-- What LangChain's `BaseTool` exposes of a tool for our purposes: its
declared name, description, argument-schema parameter names, and its
invocation behaviour (the remote server, kept opaque). -/
structure BaseToolSig where
  name : String
  description : String
  args_schema : List String
  ainvoke : List (String × PyVal) → String

/-- The kwargs update of `TelegramToolWrapper._arun` (lines 120-124):
`all_kwargs = {**kwargs}` followed by the three credential assignments in
source order. -/
def telegramInject (api_id : Int) (api_hash token : String)
    (kwargs : List (String × PyVal)) : List (String × PyVal) :=
  dictSet
    (dictSet (dictSet kwargs "telegram_api_id" (.int api_id))
      "telegram_api_hash" (.str api_hash))
    "telegram_bot_token" (.str token)

/-- The debug log line of `TelegramToolWrapper._arun` (line 126):
`f"Invoking wrapped Telegram tool '{self.name}' with injected
credentials. Final Args: {all_kwargs}"`. -/
def telegramArunLog (name : String) (all_kwargs : List (String × PyVal)) :
    String :=
  "Invoking wrapped Telegram tool \x27" ++ name ++
    "\x27 with injected credentials. Final Args: " ++ dictRepr all_kwargs

/-- `TelegramToolWrapper._arun` as a pure pair: the debug log line it
emits and the dispatch to the wrapped tool on the injected kwargs. -/
def telegramArun (wrapped : BaseToolSig) (api_id : Int)
    (api_hash token : String) (kwargs : List (String × PyVal)) :
    String × String :=
  let all_kwargs := telegramInject api_id api_hash token kwargs
  (telegramArunLog wrapped.name all_kwargs, wrapped.ainvoke all_kwargs)

/-- `TelegramToolWrapper.__init__` (lines 105-118): the wrapper is built
with the wrapped tool's `name`, `description` and `args_schema` passed
through unchanged, and its invocation is `_arun`'s dispatch. -/
def TelegramToolWrapper (wrapped : BaseToolSig) (api_id : Int)
    (api_hash token : String) : BaseToolSig where
  name := wrapped.name
  description := wrapped.description
  args_schema := wrapped.args_schema
  ainvoke := fun kwargs =>
    wrapped.ainvoke (telegramInject api_id api_hash token kwargs)

/-- The raw `send_message_telegram` tool as served by the Telegram MCP
server (`mcp-servers/telegram-mcp/server.py` line 181): its declared
argument schema includes the three credential parameters.  The remote
behaviour is opaque; here it echoes its arguments. -/
def sendMessageTelegramSig : BaseToolSig where
  name := "send_message_telegram"
  description := "Sends a message to a specific Telegram chat."
  args_schema :=
    ["chat_id", "message", "telegram_bot_token", "telegram_api_id",
     "telegram_api_hash"]
  ainvoke := fun kwargs => dictRepr kwargs

/-- Modelled from the spec: the wrapper exposes "the argument schema minus
the injected parameters" — claim C7's expected exposed schema, to be
compared with what the source actually exposes. -/
def specSchemaMinusInjected (schema : List String) : List String :=
  schema.filter (fun p =>
    ¬ (p = "telegram_api_id" ∨ p = "telegram_api_hash" ∨
       p = "telegram_bot_token"))

/-- The keyword parameters the Telegram wrapper injects. -/
def injectedKeys : List String :=
  ["telegram_api_id", "telegram_api_hash", "telegram_bot_token"]

/-- The token-independent part of the `_arun` debug log line, given that
the caller kwargs do not already carry the injected keys. -/
def telegramLogStem (name : String) (api_id : Int) (api_hash : String)
    (kwargs : List (String × PyVal)) : String :=
  "Invoking wrapped Telegram tool \x27" ++ name ++
    "\x27 with injected credentials. Final Args: " ++ "\x7b" ++
    CustomToolAgent.joinSep ", "
      ((kwargs ++
        [("telegram_api_id", PyVal.int api_id),
         ("telegram_api_hash", PyVal.str api_hash)]).map
        (fun kv => "\x27" ++ kv.1 ++ "\x27: " ++ pyRepr kv.2)) ++
    ", " ++ "\x27telegram_bot_token\x27: " ++ "\x27"

end AgentManagerM

namespace AgentsRoute

/-- A stored agent configuration row, reduced to the columns the list and
delete handlers read (`id`, `user_id`; `name` kept for identification).
Rows are modelled post-validation: `get_all_agent_configs` silently drops
rows that fail Pydantic validation, which is orthogonal to these claims. -/
structure AgentConfigRec where
  id : String
  user_id : String
  name : String
deriving DecidableEq

/-- `PostgresManager.get_all_agent_configs` (lines 288-370): `SELECT …
FROM agents a LEFT JOIN … GROUP BY a.id` — no `WHERE` clause, hence every
user's rows. -/
def get_all_agent_configs (db : List AgentConfigRec) : List AgentConfigRec :=
  db

/-- The `GET /agents/list` handler `list_agents` (routes/agents.py lines
104-120): authenticates `current_user`, then returns
`get_all_agent_configs()` unfiltered. -/
def list_agents (current_user : String) (db : List AgentConfigRec) :
    List AgentConfigRec :=
  let _ := current_user
  get_all_agent_configs db

/-- `PostgresManager.get_agent_config` (lines 373-458): the single-row
`SELECT … WHERE a.id = $1`, `None` when absent. -/
def get_agent_config (db : List AgentConfigRec) (agent_id : String) :
    Option AgentConfigRec :=
  db.find? (fun a => a.id = agent_id)

/-- An `agent_tool_association` row. -/
structure AssocRec where
  agent_id : String
  tool_id : String
deriving DecidableEq

/-- A `chat_sessions` row (the columns the cascade keys on). -/
structure SessionRec where
  id : String
  agent_id : String
deriving DecidableEq

/-- A `chat_messages` row (the columns the cascade keys on). -/
structure MessageRec where
  id : String
  session_id : String
deriving DecidableEq

/-- A `chat_summaries` row (keyed by its session). -/
structure SummaryRec where
  session_id : String
deriving DecidableEq

/-- The relational store as `_ensure_tables_exist` lays it out: agents,
tool associations, chat sessions, chat messages and chat summaries, with
`ON DELETE CASCADE` from agents to associations and sessions and from
sessions to messages and summaries. -/
structure Store where
  agents : List AgentConfigRec
  associations : List AssocRec
  sessions : List SessionRec
  messages : List MessageRec
  summaries : List SummaryRec
deriving DecidableEq

/-- The in-memory registry `_initialized_agents`, keyed by agent id (the
cached executor/client value is opaque and modelled by the agent name). -/
def Registry := List (String × String)

/-- `AgentManager.shutdown_specific_agent` (agent_manager.py lines
207-218): pop the agent from the registry (closing its client is external
I/O). -/
def shutdown_specific_agent (registry : List (String × String))
    (agent_id : String) : List (String × String) :=
  registry.filter (fun kv => kv.1 ≠ agent_id)

/-- `PostgresManager.delete_agent_config` (`DELETE FROM agents WHERE id =
$1`) together with the schema's `ON DELETE CASCADE` chains: associations
and sessions of the agent go, and messages and summaries of those
sessions go with them. -/
def delete_agent_cascade (store : Store) (agent_id : String) : Store :=
  let deadSessions := store.sessions.filter (fun s => s.agent_id = agent_id)
  { agents := store.agents.filter (fun a => a.id ≠ agent_id)
    associations := store.associations.filter (fun x => x.agent_id ≠ agent_id)
    sessions := store.sessions.filter (fun s => s.agent_id ≠ agent_id)
    messages := store.messages.filter
      (fun m => deadSessions.all (fun s => s.id ≠ m.session_id))
    summaries := store.summaries.filter
      (fun y => deadSessions.all (fun s => s.id ≠ y.session_id)) }

/-- Outcome of the `DELETE /agents/{id}` handler. -/
inductive DeleteStatus where
  | ok : DeleteStatus
  | notFound : DeleteStatus
  | forbidden : DeleteStatus
deriving DecidableEq

/-- The `DELETE /agents/{id}` handler `delete_agent` (routes/agents.py
lines 153-187): 404 when the config is absent, 403 when the requester is
not the owner (no state touched), otherwise shutdown, registry removal
and cascade delete. -/
def delete_agent (current_user agent_id : String)
    (registry : List (String × String)) (store : Store) :
    DeleteStatus × List (String × String) × Store :=
  match get_agent_config store.agents agent_id with
  | none => (.notFound, registry, store)
  | some cfg =>
      if cfg.user_id ≠ current_user then (.forbidden, registry, store)
      else
        (.ok, shutdown_specific_agent registry agent_id,
          delete_agent_cascade store agent_id)

/-- Two-user database used to exercise the list endpoint. -/
def twoUserDb : List AgentConfigRec :=
  [⟨"a1", "userA", "Iris"⟩, ⟨"a2", "userB", "Hera"⟩]

/-- A one-agent store with a session, a message, a summary and a tool
binding, used to exercise the delete endpoint. -/
def c9Store : Store where
  agents := [⟨"a1", "userA", "Iris"⟩]
  associations := [⟨"a1", "t1"⟩]
  sessions := [⟨"s1", "a1"⟩]
  messages := [⟨"m1", "s1"⟩]
  summaries := [⟨"s1"⟩]

/-- The registry holding the one running agent of `c9Store`. -/
def c9Registry : List (String × String) := [("a1", "Iris")]

end AgentsRoute

namespace PostgresM

open CustomToolAgent in
/-- What asyncpg hands back in the `content` column of a `chat_messages`
row: a JSON text, an already-decoded dict, or some other value (rendered
by `str` in the fallback). -/
inductive CellVal where
  | str (s : String)
  | dict (fields : List (String × Json))
  | other (rendered : String)

open CustomToolAgent in
/-- `safe_content_parse` (postgres_manager.py lines 844-856): decode a
string through `json.loads`, wrap an undecodable string as
`{"text": value}`, pass a dict through, and wrap anything else as
`{"text": str(value)}`. -/
def safe_content_parse (parse : String → Option Json) : CellVal → Json
  | .str s =>
      match parse s with
      | some v => v
      | none => Json.obj [("text", Json.str s)]
  | .dict fields => Json.obj fields
  | .other rendered => Json.obj [("text", Json.str rendered)]

open CustomToolAgent in
/-- The validated `MessageContent` model (chat_models.py lines 9-16):
`text : Optional[str]`, `tool_calls : Optional[List[Dict[str, Any]]]`,
`tool_output : Optional[Any]`. -/
structure MessageContent where
  text : Option String
  tool_calls : Option (List (List (String × Json)))
  tool_output : Option Json

open CustomToolAgent in
/-- `MessageContent.model_validate`, modelled from Pydantic semantics: the
input must be a dict; `text` absent or null maps to `None` and otherwise
must be a string; `tool_calls` absent or null maps to `None` and
otherwise must be a list of dicts; `tool_output` accepts anything (null
as `None`); unknown keys are ignored. -/
def validate_message_content : Json → Option MessageContent
  | Json.obj fields => do
      let text ←
        match jlookup "text" fields with
        | none => some none
        | some Json.null => some none
        | some (Json.str s) => some (some s)
        | some _ => none
      let tool_calls ←
        match jlookup "tool_calls" fields with
        | none => some none
        | some Json.null => some none
        | some (Json.arr xs) =>
            (xs.mapM (fun x =>
              match x with
              | Json.obj fs => some fs
              | _ => none)).map some
        | some _ => none
      let tool_output :=
        match jlookup "tool_output" fields with
        | none => none
        | some Json.null => none
        | some v => some v
      some ⟨text, tool_calls, tool_output⟩
  | _ => none

/-- A fetched `chat_messages` row. -/
structure MsgRow where
  id : String
  session_id : String
  sender_type : String
  content : CellVal
  isPartial : Bool
  message_type : String

/-- A successfully reconstructed `ChatMessage` as `get_chat_messages`
returns it. -/
structure ChatMessageOut where
  id : String
  session_id : String
  sender_type : String
  content : MessageContent
  isPartial : Bool
  message_type : String

open CustomToolAgent in
/-- The per-row body of the `get_chat_messages` loop (lines 841-872):
parse the content, validate it, and build the message — or skip the row
(`continue`) when anything in that raises. -/
def process_row (parse : String → Option Json) (r : MsgRow) :
    Option ChatMessageOut :=
  (validate_message_content (safe_content_parse parse r.content)).map
    (fun mc =>
      ⟨r.id, r.session_id, r.sender_type, mc, r.isPartial, r.message_type⟩)

open CustomToolAgent in
/-- `PostgresManager.get_chat_messages` (lines 826-875) after the fetch:
every row is processed independently and failing rows are dropped. -/
def get_chat_messages (parse : String → Option Json) (rows : List MsgRow) :
    List ChatMessageOut :=
  rows.filterMap (process_row parse)

open CustomToolAgent in
/-- A `json.loads` model that decodes the text `123` as the number it is
and fails on everything else. -/
def c10Parse : String → Option Json :=
  fun s => if s = "123" then some (Json.num "123") else none

/-- A row whose content column holds a plain non-JSON string. -/
def c10RowText : MsgRow := ⟨"m1", "s1", "user", .str "hello", false, "human"⟩

/-- A row whose content column holds the text `123`: it decodes to a JSON
number, which `MessageContent` validation rejects. -/
def c10RowBad : MsgRow := ⟨"m2", "s1", "ai", .str "123", false, "ai"⟩

end PostgresM

namespace ConnManager

/-- One subscriber tuple `(websocket, user_id, session_id)` as stored in
`active_connections`; sockets are identified by an id. -/
structure Conn where
  ws : Nat
  user_id : String
  session_id : String
deriving DecidableEq

/-- The `active_connections` dict, `channel → subscriber list`, as an
insertion-ordered association list. -/
def ConnState := List (String × List Conn)

/-- Removal of the first tuple holding the given socket from one
channel's list (the inner loop of `disconnect` with its `break`). -/
def removeFirstWs (ws : Nat) : List Conn → List Conn
  | [] => []
  | c :: rest => if c.ws = ws then rest else c :: removeFirstWs ws rest

/-- `ConnectionManager.disconnect` (connection_manager.py lines 33-58):
scan channels in order; in the first channel containing the socket,
remove the first matching tuple and delete the channel if it became
empty; then stop (`break` out of both loops). -/
def disconnect (ws : Nat) : List (String × List Conn) →
    List (String × List Conn)
  | [] => []
  | (ch, conns) :: rest =>
      if conns.any (fun c => c.ws = ws) then
        let conns2 := removeFirstWs ws conns
        if conns2.isEmpty then rest else (ch, conns2) :: rest
      else (ch, conns) :: disconnect ws rest

/-- How many subscription tuples across all channels hold the socket. -/
def wsCount (ws : Nat) : List (String × List Conn) → Nat
  | [] => 0
  | p :: rest => (p.2.filter (fun c => c.ws = ws)).length + wsCount ws rest

/-- A socket subscribed to two session channels at once. -/
def twoChannelState : List (String × List Conn) :=
  [("chat-session-a", [⟨1, "u", "a"⟩]), ("chat-session-b", [⟨1, "u", "b"⟩])]

end ConnManager

/-- Claim C1, counterexample: the claim says the loop performs at most 8
tool round trips and that the 9th consecutive tool-calling model response
ends the loop with a canned final reply.  In the code there is no
`MAX_TOOL_ROUND_TRIPS` at all: with a model that responds with tool calls
every time, the loop is still running after 9 and even after 10 rounds of
`call_model` (so no final — canned or otherwise — reply was produced). -/
theorem C1_counterexample :
    CustomToolAgent.runAgent CustomToolAgent.alwaysToolEnv 9
        [CustomToolAgent.Msg.human "hi"] = none ∧
    CustomToolAgent.runAgent CustomToolAgent.alwaysToolEnv 10
        [CustomToolAgent.Msg.human "hi"] = none :=
  ⟨rfl, rfl⟩

/-- Claim C1 (amended): the model↔tool loop has no round-trip bound.  It
transitions to `call_tool` exactly while the model keeps responding with
tool calls: a model that always emits tool calls keeps the loop running
past any number of rounds (first conjunct), and the loop terminates — with
the model's own message and no canned reply appended — exactly when a
model response carries no tool calls (second conjunct). -/
theorem C1_no_round_trip_limit (env : CustomToolAgent.RunEnv) :
    (∀ fuel messages,
        (∀ prompt, (env.model prompt).tool_calls ≠ []) →
        CustomToolAgent.runAgent env fuel messages = none) ∧
    (∀ fuel messages,
        (env.model
          (CustomToolAgent.full_messages env.system_prompt messages)).tool_calls
            = [] →
        CustomToolAgent.runAgent env (fuel + 1) messages =
          some (messages ++ [CustomToolAgent.call_model env messages])) := by
  constructor
  · intro fuel
    induction fuel with
    | zero => intro messages _; rfl
    | succ n ih =>
        intro messages h
        have hcont :
            CustomToolAgent.should_continue
                (messages ++ [CustomToolAgent.call_model env messages]) =
              "continue" := by
          unfold CustomToolAgent.should_continue CustomToolAgent.call_model
          rw [List.getLast?_append]
          simp only [List.getLast?_singleton]
          have := h (CustomToolAgent.full_messages env.system_prompt messages)
          simp [List.isEmpty_iff, this]
        unfold CustomToolAgent.runAgent
        simp only [hcont, if_pos rfl]
        exact ih _ h
  · intro fuel messages h
    have hend :
        CustomToolAgent.should_continue
            (messages ++ [CustomToolAgent.call_model env messages]) = "end" := by
      unfold CustomToolAgent.should_continue CustomToolAgent.call_model
      rw [List.getLast?_append]
      simp only [List.getLast?_singleton]
      simp [List.isEmpty_iff, h]
    unfold CustomToolAgent.runAgent
    simp [hend]

/-- Claim C1, witness: the amended theorem applied to the two concrete
environments — the always-tool-calling model is still looping after three
rounds, and the text-only model ends after one round with just its own
message. -/
theorem C1_no_round_trip_limit_witness :
    CustomToolAgent.runAgent CustomToolAgent.alwaysToolEnv 3
        [CustomToolAgent.Msg.human "hi"] = none ∧
    CustomToolAgent.runAgent CustomToolAgent.noToolEnv 1 [] =
      some ([] ++ [CustomToolAgent.call_model CustomToolAgent.noToolEnv []]) :=
  ⟨(C1_no_round_trip_limit CustomToolAgent.alwaysToolEnv).1 3
      [CustomToolAgent.Msg.human "hi"] (fun _ => List.cons_ne_nil _ _),
   (C1_no_round_trip_limit CustomToolAgent.noToolEnv).2 0 [] rfl⟩

/-- Claim C5 (confirmed): in `call_model`, the prompt sent to the model is
the system prompt followed by the `min(length(history), 9)` most recent
history messages in oldest-to-newest order (the windowed part is a suffix
of the history), and with more than 9 prior messages the model receives
exactly 10 messages. -/
theorem C5_call_model_window :
    ∀ (system_prompt : String) (history : List CustomToolAgent.Msg),
      (CustomToolAgent.full_messages system_prompt history).length =
        min history.length 9 + 1 ∧
      CustomToolAgent.full_messages system_prompt history =
        CustomToolAgent.Msg.system system_prompt ::
          CustomToolAgent.window history ∧
      List.IsSuffix (CustomToolAgent.window history) history ∧
      (CustomToolAgent.window history).length = min history.length 9 ∧
      (9 < history.length →
        (CustomToolAgent.full_messages system_prompt history).length = 10) := by
  intro sp history
  have hsuf : List.IsSuffix (CustomToolAgent.window history) history := by
    unfold CustomToolAgent.window
    split
    · exact List.drop_suffix _ _
    · exact List.suffix_rfl
  have hlen : (CustomToolAgent.window history).length = min history.length 9 := by
    unfold CustomToolAgent.window CustomToolAgent.MAX_HISTORY_MESSAGES
    split
    · rename_i h
      simp only [List.length_drop]
      omega
    · rename_i h
      omega
  refine ⟨?_, rfl, hsuf, hlen, ?_⟩
  · simp [CustomToolAgent.full_messages, hlen]
  · intro h
    simp [CustomToolAgent.full_messages, hlen]
    omega

/-- Claim C5, witness: with 12 prior messages the assembled prompt has
exactly 10 entries. -/
theorem C5_call_model_window_witness :
    (CustomToolAgent.full_messages "sys"
        (List.replicate 12 (CustomToolAgent.Msg.human "m"))).length = 10 :=
  (C5_call_model_window "sys"
      (List.replicate 12 (CustomToolAgent.Msg.human "m"))).2.2.2.2 (by decide)

/-- Left cancellation of string concatenation. -/
theorem strAppend_cancel_left (a x y : String) (h : a ++ x = a ++ y) :
    x = y := by
  have hd : (a ++ x).data = (a ++ y).data := by rw [h]
  simp only [String.data_append] at hd
  exact String.ext (List.append_cancel_left hd)

/-- Right cancellation of string concatenation. -/
theorem strAppend_cancel_right (b x y : String) (h : x ++ b = y ++ b) :
    x = y := by
  have hd : (x ++ b).data = (y ++ b).data := by rw [h]
  simp only [String.data_append] at hd
  exact String.ext (List.append_cancel_right hd)

namespace AgentManagerM

/-- Assigning a fresh key to a Python dict appends the binding. -/
theorem dictSet_append (d : List (String × PyVal)) (key : String) (v : PyVal)
    (h : ∀ kv ∈ d, kv.1 ≠ key) : dictSet d key v = d ++ [(key, v)] := by
  have hany : d.any (fun kv => kv.1 = key) = false := by
    simp only [List.any_eq_false, decide_eq_true_eq]
    exact h
  simp [dictSet, hany]

/-- When the caller kwargs carry none of the injected keys, the wrapper's
kwargs update appends the three credential bindings in source order. -/
theorem telegramInject_append (api_id : Int) (api_hash token : String)
    (kwargs : List (String × PyVal))
    (hk : ∀ kv ∈ kwargs, ¬ kv.1 ∈ injectedKeys) :
    telegramInject api_id api_hash token kwargs =
      kwargs ++
        [("telegram_api_id", PyVal.int api_id),
         ("telegram_api_hash", PyVal.str api_hash),
         ("telegram_bot_token", PyVal.str token)] := by
  have hk3 : ∀ kv ∈ kwargs, kv.1 ≠ "telegram_api_id" ∧
      kv.1 ≠ "telegram_api_hash" ∧ kv.1 ≠ "telegram_bot_token" := by
    intro kv hm
    have := hk kv hm
    simp [injectedKeys] at this
    exact ⟨this.1, this.2.1, this.2.2⟩
  have e1 := dictSet_append kwargs "telegram_api_id" (PyVal.int api_id)
    (fun kv hm => (hk3 kv hm).1)
  have e2 := dictSet_append (kwargs ++ [("telegram_api_id", PyVal.int api_id)])
    "telegram_api_hash" (PyVal.str api_hash)
    (by
      intro kv hm
      rcases List.mem_append.mp hm with h | h
      · exact (hk3 kv h).2.1
      · simp at h
        subst h
        simp)
  have e3 := dictSet_append
    ((kwargs ++ [("telegram_api_id", PyVal.int api_id)]) ++
      [("telegram_api_hash", PyVal.str api_hash)])
    "telegram_bot_token" (PyVal.str token)
    (by
      intro kv hm
      rcases List.mem_append.mp hm with h | h
      · rcases List.mem_append.mp h with h2 | h2
        · exact (hk3 kv h2).2.2
        · simp at h2
          subst h2
          simp
      · simp at h
        subst h
        simp)
  unfold telegramInject
  rw [e1, e2, e3]
  simp

/-- Joining a list extended by one element appends one separator and the
element, provided the list was nonempty. -/
theorem joinSep_append_single (sep : String) (xs : List String) (a : String)
    (h : xs ≠ []) :
    CustomToolAgent.joinSep sep (xs ++ [a]) =
      CustomToolAgent.joinSep sep xs ++ sep ++ a := by
  induction xs with
  | nil => exact absurd rfl h
  | cons x rest ih =>
      cases rest with
      | nil => simp [CustomToolAgent.joinSep]
      | cons y t =>
          have e1 : CustomToolAgent.joinSep sep (x :: y :: (t ++ [a])) =
              x ++ sep ++ CustomToolAgent.joinSep sep (y :: (t ++ [a])) := rfl
          have e2 : CustomToolAgent.joinSep sep (x :: y :: t) =
              x ++ sep ++ CustomToolAgent.joinSep sep (y :: t) := rfl
          have e3 : (x :: y :: t) ++ [a] = x :: y :: (t ++ [a]) := rfl
          simp only [List.cons_append] at ih
          rw [e3, e1, e2, ih (by simp)]
          simp [String.append_assoc]

/-- The wrapper's debug log line splits as a token-independent stem, then
the bot token itself, then a closing quote and brace. -/
theorem telegramLog_decomp (name : String) (api_id : Int)
    (api_hash token : String) (kwargs : List (String × PyVal))
    (hk : ∀ kv ∈ kwargs, ¬ kv.1 ∈ injectedKeys) :
    telegramArunLog name (telegramInject api_id api_hash token kwargs) =
      telegramLogStem name api_id api_hash kwargs ++ token ++
        ("\x27" ++ "\x7d") := by
  rw [telegramInject_append api_id api_hash token kwargs hk]
  unfold telegramArunLog dictRepr telegramLogStem
  have hsplit :
      (kwargs ++
        [("telegram_api_id", PyVal.int api_id),
         ("telegram_api_hash", PyVal.str api_hash),
         ("telegram_bot_token", PyVal.str token)]) =
      (kwargs ++
        [("telegram_api_id", PyVal.int api_id),
         ("telegram_api_hash", PyVal.str api_hash)]) ++
        [("telegram_bot_token", PyVal.str token)] := by
    simp
  rw [hsplit, List.map_append]
  simp only [List.map_cons, List.map_nil]
  rw [joinSep_append_single _ _ _ (by simp)]
  simp only [pyRepr]
  apply String.ext
  simp [String.data_append, List.append_assoc]

/-- Looking a key up in a concatenation of dicts: the left dict wins. -/
theorem dictGet_append (d e : List (String × PyVal)) (k : String) :
    dictGet (d ++ e) k =
      (match dictGet d k with
       | some v => some v
       | none => dictGet e k) := by
  induction d with
  | nil => simp [dictGet]
  | cons kv rest ih =>
      by_cases hh : kv.1 = k
      · simp [dictGet, hh]
      · simp [dictGet, hh, ih]

/-- A key bound by no entry looks up to nothing. -/
theorem dictGet_of_all_ne (d : List (String × PyVal)) (key : String)
    (h : ∀ kv ∈ d, kv.1 ≠ key) : dictGet d key = none := by
  induction d with
  | nil => rfl
  | cons kv rest ih =>
      simp only [dictGet, if_neg (h kv (by simp))]
      exact ih (fun x hx => h x (by simp [hx]))

/-- In-place replacement makes the key look up to the new value. -/
theorem dictGet_map_same (d : List (String × PyVal)) (key : String)
    (v : PyVal) (hany : d.any (fun kv => kv.1 = key) = true) :
    dictGet (d.map (fun kv => if kv.1 = key then (key, v) else kv)) key =
      some v := by
  induction d with
  | nil => simp at hany
  | cons kv rest ih =>
      by_cases hh : kv.1 = key
      · rw [List.map_cons, if_pos hh]
        simp [dictGet]
      · rw [List.map_cons, if_neg hh]
        simp only [dictGet, if_neg hh]
        apply ih
        rw [List.any_cons, Bool.or_eq_true] at hany
        rcases hany with h1 | h2
        · exact absurd (of_decide_eq_true h1) hh
        · exact h2

/-- In-place replacement of one key leaves other lookups unchanged. -/
theorem dictGet_map_other (d : List (String × PyVal)) (key : String)
    (v : PyVal) (k : String) (h : k ≠ key) :
    dictGet (d.map (fun kv => if kv.1 = key then (key, v) else kv)) k =
      dictGet d k := by
  induction d with
  | nil => rfl
  | cons kv rest ih =>
      by_cases hh : kv.1 = key
      · rw [List.map_cons, if_pos hh]
        simp only [dictGet]
        rw [if_neg (fun hc : key = k => h hc.symm),
          if_neg (fun hc : kv.1 = k => h (hh.symm.trans hc).symm)]
        exact ih
      · rw [List.map_cons, if_neg hh]
        by_cases hk2 : kv.1 = k
        · simp [dictGet, hk2]
        · simp only [dictGet, if_neg hk2]
          exact ih

/-- After `d[key] = v`, the key looks up to `v`. -/
theorem dictGet_dictSet_same (d : List (String × PyVal)) (key : String)
    (v : PyVal) : dictGet (dictSet d key v) key = some v := by
  unfold dictSet
  split
  · rename_i hany
    exact dictGet_map_same d key v hany
  · rename_i hany
    rw [dictGet_append]
    have hnone : dictGet d key = none := by
      apply dictGet_of_all_ne
      intro kv hm hc
      apply hany
      rw [List.any_eq_true]
      exact ⟨kv, hm, by simp [hc]⟩
    rw [hnone]
    simp [dictGet]

/-- After `d[key] = v`, every other key looks up as before. -/
theorem dictGet_dictSet_other (d : List (String × PyVal)) (key : String)
    (v : PyVal) (k : String) (h : k ≠ key) :
    dictGet (dictSet d key v) k = dictGet d k := by
  unfold dictSet
  split
  · exact dictGet_map_other d key v k h
  · rw [dictGet_append]
    cases hd : dictGet d k with
    | some w => rfl
    | none => simp [dictGet, if_neg (fun hc : key = k => h hc.symm)]

end AgentManagerM

namespace ConnManager

/-- Removing the first matching tuple drops exactly one match. -/
theorem removeFirstWs_count (ws : Nat) (conns : List Conn)
    (h : conns.any (fun c => c.ws = ws) = true) :
    ((removeFirstWs ws conns).filter (fun c => c.ws = ws)).length =
      (conns.filter (fun c => c.ws = ws)).length - 1 := by
  induction conns with
  | nil => simp at h
  | cons c rest ih =>
      by_cases hc : c.ws = ws
      · simp [removeFirstWs, hc, List.filter_cons]
      · have hrest : rest.any (fun c => c.ws = ws) = true := by
          rw [List.any_cons, Bool.or_eq_true] at h
          rcases h with h1 | h2
          · exact absurd (of_decide_eq_true h1) hc
          · exact h2
        simp [removeFirstWs, hc, List.filter_cons, ih hrest]

/-- A channel without the socket contributes no matches. -/
theorem filter_len_zero_of_any_false (ws : Nat) (conns : List Conn)
    (h : conns.any (fun c => c.ws = ws) = false) :
    (conns.filter (fun c => c.ws = ws)).length = 0 := by
  rw [List.length_eq_zero, List.filter_eq_nil_iff]
  intro c hc
  rw [List.any_eq_false] at h
  exact h c hc

/-- A channel holding the socket contributes at least one match. -/
theorem filter_len_pos_of_any_true (ws : Nat) (conns : List Conn)
    (h : conns.any (fun c => c.ws = ws) = true) :
    1 ≤ (conns.filter (fun c => c.ws = ws)).length := by
  rcases List.any_eq_true.mp h with ⟨c, hc, hws⟩
  have hmem : c ∈ conns.filter (fun c => c.ws = ws) :=
    List.mem_filter.mpr ⟨hc, hws⟩
  exact List.length_pos.mpr (fun hnil => by simp [hnil] at hmem)

/-- The socket has zero subscriptions exactly when no channel holds it. -/
theorem wsCount_eq_zero_iff (ws : Nat) (st : List (String × List Conn)) :
    wsCount ws st = 0 ↔ ∀ p ∈ st, ∀ c ∈ p.2, c.ws ≠ ws := by
  induction st with
  | nil => simp [wsCount]
  | cons p rest ih =>
      simp only [wsCount, Nat.add_eq_zero]
      constructor
      · rintro ⟨h1, h2⟩ q hq c hc
        rcases List.mem_cons.mp hq with hq | hq
        · subst hq
          rw [List.length_eq_zero, List.filter_eq_nil_iff] at h1
          have := h1 c hc
          simpa using this
        · exact (ih.mp h2) q hq c hc
      · intro hall
        constructor
        · rw [List.length_eq_zero, List.filter_eq_nil_iff]
          intro c hc
          simpa using hall p (by simp) c hc
        · exact ih.mpr (fun q hq c hc => hall q (by simp [hq]) c hc)

/-- Disconnecting a socket that is not subscribed changes nothing. -/
theorem disconnect_of_count_zero (ws : Nat) (st : List (String × List Conn))
    (h0 : wsCount ws st = 0) : disconnect ws st = st := by
  induction st with
  | nil => rfl
  | cons p rest ih =>
      obtain ⟨ch, conns⟩ := p
      simp only [wsCount, Nat.add_eq_zero] at h0
      have hanyf : conns.any (fun c => c.ws = ws) = false := by
        rw [List.any_eq_false]
        intro c hc
        rw [List.length_eq_zero, List.filter_eq_nil_iff] at h0
        have := h0.1 c hc
        simpa using this
      simp only [disconnect, hanyf, Bool.false_eq_true, if_false]
      rw [ih h0.2]

/-- Disconnecting a subscribed socket removes exactly one subscription. -/
theorem wsCount_disconnect (ws : Nat) (st : List (String × List Conn))
    (hpos : 0 < wsCount ws st) :
    wsCount ws (disconnect ws st) = wsCount ws st - 1 := by
  induction st with
  | nil => simp [wsCount] at hpos
  | cons p rest ih =>
      obtain ⟨ch, conns⟩ := p
      by_cases hany : conns.any (fun c => c.ws = ws) = true
      · have hcf := removeFirstWs_count ws conns hany
        have hge := filter_len_pos_of_any_true ws conns hany
        simp only [disconnect, hany, if_pos]
        by_cases hemp : (removeFirstWs ws conns).isEmpty = true
        · rw [if_pos hemp]
          have hz : ((removeFirstWs ws conns).filter
              (fun c => c.ws = ws)).length = 0 := by
            rw [List.isEmpty_iff] at hemp
            simp [hemp]
          simp only [wsCount]
          omega
        · rw [if_neg hemp]
          simp only [wsCount]
          omega
      · have hanyf : conns.any (fun c => c.ws = ws) = false := by
          revert hany
          cases conns.any (fun c => c.ws = ws) <;> simp
        have hz := filter_len_zero_of_any_false ws conns hanyf
        simp only [disconnect, hanyf, Bool.false_eq_true, if_false]
        simp only [wsCount] at hpos ⊢
        rw [hz] at hpos ⊢
        simp only [Nat.zero_add] at hpos ⊢
        exact ih hpos

/-- Disconnect never leaves an empty channel behind. -/
theorem disconnect_preserves_nonempty (ws : Nat)
    (st : List (String × List Conn)) (hne : ∀ p ∈ st, p.2 ≠ []) :
    ∀ p ∈ disconnect ws st, p.2 ≠ [] := by
  induction st with
  | nil => intro p hp; simp [disconnect] at hp
  | cons q rest ih =>
      obtain ⟨ch, conns⟩ := q
      intro p hp
      by_cases hany : conns.any (fun c => c.ws = ws) = true
      · simp only [disconnect, hany, if_pos] at hp
        by_cases hemp : (removeFirstWs ws conns).isEmpty = true
        · rw [if_pos hemp] at hp
          exact hne p (by simp [hp])
        · rw [if_neg hemp] at hp
          rcases List.mem_cons.mp hp with hp | hp
          · subst hp
            intro hc
            exact hemp (by rw [List.isEmpty_iff]; exact hc)
          · exact hne p (by simp [hp])
      · have hanyf : conns.any (fun c => c.ws = ws) = false := by
          revert hany
          cases conns.any (fun c => c.ws = ws) <;> simp
        simp only [disconnect, hanyf, Bool.false_eq_true, if_false] at hp
        rcases List.mem_cons.mp hp with hp | hp
        · subst hp
          exact hne (ch, conns) (by simp)
        · exact ih (fun r hr => hne r (by simp [hr])) p hp

end ConnManager

set_option maxRecDepth 10000 in
open AgentManagerM in
/-- Claim C2, counterexample: two wrapper invocations that differ only in
the value of `telegram_bot_token` produce different debug log lines, so
log output is not independent of the secret values. -/
theorem C2_counterexample :
    (telegramArun sendMessageTelegramSig 123 "hashA" "secretTokenA"
        [("chat_id", PyVal.str "42")]).1 ≠
      (telegramArun sendMessageTelegramSig 123 "hashA" "secretTokenB"
        [("chat_id", PyVal.str "42")]).1 := by
  decide

open AgentManagerM in
/-- Claim C2 (amended): secrets do reach the log.  For every wrapped tool
and caller arguments (not already carrying the injected keys), the debug
log line emitted by `TelegramToolWrapper._arun` contains the agent's
`telegram_bot_token` verbatim, and the log line determines the token:
two runs differing only in the token produce different log output. -/
theorem C2_wrapper_log_contains_secret (wrapped : AgentManagerM.BaseToolSig)
    (api_id : Int) (api_hash token : String)
    (kwargs : List (String × AgentManagerM.PyVal))
    (hk : ∀ kv ∈ kwargs, ¬ kv.1 ∈ AgentManagerM.injectedKeys) :
    (∃ a b, (telegramArun wrapped api_id api_hash token kwargs).1 =
      a ++ token ++ b) ∧
    (∀ token2,
      (telegramArun wrapped api_id api_hash token kwargs).1 =
        (telegramArun wrapped api_id api_hash token2 kwargs).1 →
      token = token2) := by
  have hself : (telegramArun wrapped api_id api_hash token kwargs).1 =
      telegramArunLog wrapped.name
        (telegramInject api_id api_hash token kwargs) := rfl
  constructor
  · exact ⟨telegramLogStem wrapped.name api_id api_hash kwargs,
      "\x27" ++ "\x7d", by
        rw [hself, telegramLog_decomp wrapped.name api_id api_hash token
          kwargs hk]⟩
  · intro token2 heq
    rw [hself, telegramLog_decomp wrapped.name api_id api_hash token kwargs hk]
      at heq
    have hself2 : (telegramArun wrapped api_id api_hash token2 kwargs).1 =
        telegramArunLog wrapped.name
          (telegramInject api_id api_hash token2 kwargs) := rfl
    rw [hself2, telegramLog_decomp wrapped.name api_id api_hash token2
      kwargs hk] at heq
    have h1 := strAppend_cancel_right _ _ _ heq
    exact strAppend_cancel_left _ _ _ h1

open AgentManagerM in
/-- Claim C2, witness: at a concrete invocation the log line carries the
concrete bot token as a substring. -/
theorem C2_wrapper_log_contains_secret_witness :
    ∃ a b,
      (telegramArun sendMessageTelegramSig 123 "hashA" "secretTokenA"
        [("chat_id", PyVal.str "42")]).1 = a ++ "secretTokenA" ++ b :=
  (C2_wrapper_log_contains_secret sendMessageTelegramSig 123 "hashA"
    "secretTokenA" [("chat_id", PyVal.str "42")] (by decide)).1

open ChatManagerM in
/-- Claim C3, counterexample: after eight non-partial messages, one
partial and one further non-partial message, the session has nine
non-partial messages — not a multiple of 10 — yet a summary is written,
and its stored `message_count` is 10 (the total row count), not the
non-partial count. -/
theorem C3_counterexample :
    c3State.summary =
      some ⟨"Auto-generated summary at 10 messages for session s1.", 10⟩ ∧
    countNonPartial c3State.messages = 9 := by
  constructor <;> decide

open ChatManagerM in
/-- Claim C3 (amended): on a non-partial insert, a `ChatSummary` is
written or updated exactly when the session's total stored message count
— partials included — is a (positive) multiple of `SUMMARY_STRIDE = 10`
after the insert, and the stored `message_count` equals that total count;
a partial insert never touches the summary. -/
theorem C3_summary_stride_total_count (st : ChatManagerM.SessionState)
    (role content : String) :
    ((st.messages.length + 1) % 10 = 0 →
      (add_message st role content false).summary =
        some ⟨autoSummaryText st.session_id (st.messages.length + 1),
          st.messages.length + 1⟩) ∧
    ((st.messages.length + 1) % 10 ≠ 0 →
      (add_message st role content false).summary = st.summary) ∧
    (add_message st role content false).messages.length =
      st.messages.length + 1 ∧
    (add_message st role content true).summary = st.summary := by
  have hlen : (st.messages ++ [(⟨role, content, false⟩ : ChatMessage)]).length
      = st.messages.length + 1 := by
    simp
  refine ⟨?_, ?_, ?_, ?_⟩
  · intro h
    simp only [add_message, Bool.false_eq_true, if_false, hlen]
    rw [if_pos ⟨by omega, h⟩]
  · intro h
    simp only [add_message, Bool.false_eq_true, if_false, hlen]
    rw [if_neg (by intro hc; exact h hc.2)]
  · simp only [add_message, Bool.false_eq_true, if_false, hlen]
    split <;> simp
  · simp [add_message]

open ChatManagerM in
/-- Claim C3, witness: the tenth stored message triggers a summary whose
count is 10, and the first stored message triggers none. -/
theorem C3_summary_stride_total_count_witness :
    (add_message
        ⟨"s", List.replicate 9 ⟨"user", "m", false⟩, none⟩
        "agent" "f" false).summary =
      some ⟨autoSummaryText "s" 10, 10⟩ ∧
    (add_message ⟨"s", [], none⟩ "user" "m" false).summary = none :=
  ⟨by
    have := (C3_summary_stride_total_count
      ⟨"s", List.replicate 9 ⟨"user", "m", false⟩, none⟩ "agent" "f").1
      (by decide)
    simpa using this,
   (C3_summary_stride_total_count ⟨"s", [], none⟩ "user" "m").2.1
      (by decide)⟩

open AgentsRoute in
/-- Claim C4, counterexample: with two stored agents owned by different
users, the list returned for `userA` contains a configuration whose
`user_id` is not `userA`. -/
theorem C4_counterexample :
    ∃ c ∈ list_agents "userA" twoUserDb, c.user_id ≠ "userA" := by
  decide

open AgentsRoute in
/-- Claim C4 (amended): `GET /agents/list` applies no per-user filter.
The response is the full stored configuration list, identical for any two
requesting users, and it contains every stored configuration whatever its
`user_id`. -/
theorem C4_list_agents_unfiltered (u1 u2 : String)
    (db : List AgentsRoute.AgentConfigRec) :
    list_agents u1 db = list_agents u2 db ∧
    (∀ c ∈ db, c ∈ list_agents u1 db) ∧
    list_agents u1 db = get_all_agent_configs db :=
  ⟨rfl, fun _ hc => hc, rfl⟩

open AgentsRoute in
/-- Claim C4, witness: `userB`'s agent shows up in `userA`'s listing. -/
theorem C4_list_agents_unfiltered_witness :
    (⟨"a2", "userB", "Hera"⟩ : AgentsRoute.AgentConfigRec) ∈
      list_agents "userA" twoUserDb :=
  (C4_list_agents_unfiltered "userA" "userB" twoUserDb).2.1
    ⟨"a2", "userB", "Hera"⟩ (by decide)

open CustomToolAgent in
/-- Claim C6 (confirmed): for a tool output that does not decode as JSON,
a length up to 1500 characters is returned verbatim and a length of 1501
or more is cut to the 1500-character prefix plus the truncation marker;
for output that decodes as JSON without the articles/data shapes and
exceeds 1500 characters, the result is the `Large JSON output` rendering
of the first 750 and last 750 characters. -/
theorem C6_truncate_tool_output (parse : String → Option CustomToolAgent.Json)
    (pyStr : CustomToolAgent.Json → String) (fmt2 : String → String)
    (s : String) :
    (parse s = none →
      (s.length ≤ 1500 → truncate_tool_output parse pyStr fmt2 s = s) ∧
      (1501 ≤ s.length →
        truncate_tool_output parse pyStr fmt2 s =
          s.take 1500 ++ "... (truncated)")) ∧
    (∀ j, parse s = some j → articlesShape j = none → dataShape j = none →
      1500 < s.length →
      truncate_tool_output parse pyStr fmt2 s =
        "Large JSON output (truncated): " ++ s.take 750 ++ "..." ++
          s.drop (s.length - 750)) := by
  constructor
  · intro hp
    constructor
    · intro hle
      simp only [truncate_tool_output, hp, MAX_TOOL_OUTPUT_CHARS]
      rw [if_neg (by omega)]
    · intro hgt
      simp only [truncate_tool_output, hp, MAX_TOOL_OUTPUT_CHARS]
      rw [if_pos (by omega)]
  · intro j hp ha hd hlen
    simp only [truncate_tool_output, hp, ha, hd, MAX_TOOL_OUTPUT_CHARS]
    rw [if_pos (by omega)]

open CustomToolAgent in
/-- Claim C6, witness: a short non-JSON output is kept verbatim, and a
1501-character output that decodes as a bare JSON number takes the
`Large JSON output` rendering. -/
theorem C6_truncate_tool_output_witness :
    truncate_tool_output (fun _ => none) (fun _ => "") (fun v => v) "hi" =
      "hi" ∧
    truncate_tool_output (fun _ => some (Json.num "1")) (fun _ => "")
        (fun v => v) (String.mk (List.replicate 1501 'a')) =
      "Large JSON output (truncated): " ++
        (String.mk (List.replicate 1501 'a')).take 750 ++ "..." ++
        (String.mk (List.replicate 1501 'a')).drop
          ((String.mk (List.replicate 1501 'a')).length - 750) := by
  have hlen : (String.mk (List.replicate 1501 'a')).length = 1501 := by
    rw [show (String.mk (List.replicate 1501 'a')).length =
          (List.replicate 1501 'a').length from rfl, List.length_replicate]
  refine ⟨?_, ?_⟩
  · exact ((C6_truncate_tool_output (fun _ => none) (fun _ => "")
      (fun v => v) "hi").1 rfl).1 (by decide)
  · exact (C6_truncate_tool_output (fun _ => some (Json.num "1"))
      (fun _ => "") (fun v => v) (String.mk (List.replicate 1501 'a'))).2
      (Json.num "1") rfl rfl rfl (by omega)

open AgentManagerM in
/-- Claim C7, counterexample: on the real `send_message_telegram` schema
the wrapper's exposed argument schema is not the wrapped schema with the
injected parameters removed — it still contains all three. -/
theorem C7_counterexample :
    (TelegramToolWrapper sendMessageTelegramSig 123 "hash" "tok").args_schema
      ≠ specSchemaMinusInjected sendMessageTelegramSig.args_schema := by
  decide

open AgentManagerM in
/-- Claim C7 (amended): the wrapper dispatches every invocation to the
wrapped tool with `telegram_api_id`, `telegram_api_hash` and
`telegram_bot_token` from the agent's secrets added to (overriding in)
the caller's arguments, leaving other arguments untouched; it exposes the
wrapped tool's name and description unchanged — and its argument schema
unchanged as well, the injected parameters included. -/
theorem C7_wrapper_schema_unchanged (wrapped : AgentManagerM.BaseToolSig)
    (api_id : Int) (api_hash token : String) :
    (TelegramToolWrapper wrapped api_id api_hash token).name = wrapped.name ∧
    (TelegramToolWrapper wrapped api_id api_hash token).description =
      wrapped.description ∧
    (TelegramToolWrapper wrapped api_id api_hash token).args_schema =
      wrapped.args_schema ∧
    (∀ kwargs,
      (TelegramToolWrapper wrapped api_id api_hash token).ainvoke kwargs =
        wrapped.ainvoke (telegramInject api_id api_hash token kwargs)) ∧
    (∀ kwargs,
      dictGet (telegramInject api_id api_hash token kwargs)
          "telegram_api_id" = some (PyVal.int api_id) ∧
      dictGet (telegramInject api_id api_hash token kwargs)
          "telegram_api_hash" = some (PyVal.str api_hash) ∧
      dictGet (telegramInject api_id api_hash token kwargs)
          "telegram_bot_token" = some (PyVal.str token)) ∧
    (∀ kwargs key, ¬ key ∈ AgentManagerM.injectedKeys →
      dictGet (telegramInject api_id api_hash token kwargs) key =
        dictGet kwargs key) := by
  refine ⟨rfl, rfl, rfl, fun _ => rfl, ?_, ?_⟩
  · intro kwargs
    unfold telegramInject
    refine ⟨?_, ?_, ?_⟩
    · rw [dictGet_dictSet_other _ _ _ _ (by decide),
        dictGet_dictSet_other _ _ _ _ (by decide),
        dictGet_dictSet_same]
    · rw [dictGet_dictSet_other _ _ _ _ (by decide),
        dictGet_dictSet_same]
    · rw [dictGet_dictSet_same]
  · intro kwargs key hkey
    have h3 : key ≠ "telegram_api_id" ∧ key ≠ "telegram_api_hash" ∧
        key ≠ "telegram_bot_token" := by
      simp [injectedKeys] at hkey
      exact ⟨hkey.1, hkey.2.1, hkey.2.2⟩
    unfold telegramInject
    rw [dictGet_dictSet_other _ _ _ _ h3.2.2,
      dictGet_dictSet_other _ _ _ _ h3.2.1,
      dictGet_dictSet_other _ _ _ _ h3.1]

open AgentManagerM in
/-- Claim C7, witness: at a concrete call the dispatched arguments carry
the injected token and keep the caller's `chat_id`. -/
theorem C7_wrapper_schema_unchanged_witness :
    dictGet
        (telegramInject 123 "hashA" "tokA" [("chat_id", PyVal.str "42")])
        "telegram_bot_token" = some (PyVal.str "tokA") ∧
    dictGet
        (telegramInject 123 "hashA" "tokA" [("chat_id", PyVal.str "42")])
        "chat_id" = some (PyVal.str "42") :=
  ⟨((C7_wrapper_schema_unchanged sendMessageTelegramSig 123 "hashA"
      "tokA").2.2.2.2.1 [("chat_id", PyVal.str "42")]).2.2,
   (C7_wrapper_schema_unchanged sendMessageTelegramSig 123 "hashA"
      "tokA").2.2.2.2.2 [("chat_id", PyVal.str "42")] "chat_id" (by decide)⟩

open ConnManager in
/-- Claim C8, counterexample: a socket subscribed in two channels still
has one live subscription after `disconnect` — the subscription in the
second channel survives. -/
theorem C8_counterexample :
    wsCount 1 twoChannelState = 2 ∧
    wsCount 1 (disconnect 1 twoChannelState) = 1 ∧
    (⟨1, "u", "b"⟩ : ConnManager.Conn) ∈
      (disconnect 1 twoChannelState).foldr (fun p acc => p.2 ++ acc) [] := by
  refine ⟨by decide, by decide, by decide⟩

open ConnManager in
/-- Claim C8 (amended): `disconnect` removes only the first matching
subscription — scanning channels in insertion order — and deletes the one
channel it touched if that channel became empty.  A socket not subscribed
is a no-op; a subscribed socket loses exactly one subscription per call,
so only a socket with a single subscription is guaranteed gone from every
channel; no channel is ever left empty. -/
theorem C8_disconnect_first_match (ws : Nat)
    (st : List (String × List ConnManager.Conn)) :
    (wsCount ws st = 0 → disconnect ws st = st) ∧
    (0 < wsCount ws st →
      wsCount ws (disconnect ws st) = wsCount ws st - 1) ∧
    (wsCount ws st ≤ 1 →
      ∀ p ∈ disconnect ws st, ∀ c ∈ p.2, c.ws ≠ ws) ∧
    ((∀ p ∈ st, p.2 ≠ []) → ∀ p ∈ disconnect ws st, p.2 ≠ []) := by
  refine ⟨disconnect_of_count_zero ws st, wsCount_disconnect ws st, ?_,
    disconnect_preserves_nonempty ws st⟩
  intro hle p hp c hc
  rcases Nat.lt_or_ge 0 (wsCount ws st) with hpos | hzero
  · have h1 : wsCount ws st = 1 := by omega
    have hafter : wsCount ws (disconnect ws st) = 0 := by
      rw [wsCount_disconnect ws st hpos, h1]
    exact (wsCount_eq_zero_iff ws (disconnect ws st)).mp hafter p hp c hc
  · have h0 : wsCount ws st = 0 := by omega
    rw [disconnect_of_count_zero ws st h0] at hp
    exact (wsCount_eq_zero_iff ws st).mp h0 p hp c hc

open ConnManager in
/-- Claim C8, witness: disconnecting a socket with no subscription leaves
the two-channel state untouched. -/
theorem C8_disconnect_first_match_witness :
    disconnect 7 twoChannelState = twoChannelState :=
  (C8_disconnect_first_match 7 twoChannelState).1 (by decide)

open AgentsRoute in
/-- Claim C9 (confirmed): `DELETE /agents/{id}` returns 404 (state
untouched) when no config with the id exists; 403 with registry and store
untouched when the requester is not the owner; and only for the owner it
removes the registry entry and cascade-deletes the config, its tool
associations, its sessions and their messages and summaries. -/
theorem C9_delete_agent_owner_only (u aid : String)
    (registry : List (String × String)) (store : AgentsRoute.Store) :
    (get_agent_config store.agents aid = none →
      delete_agent u aid registry store = (.notFound, registry, store)) ∧
    (∀ cfg, get_agent_config store.agents aid = some cfg →
      cfg.user_id ≠ u →
      delete_agent u aid registry store = (.forbidden, registry, store)) ∧
    (∀ cfg, get_agent_config store.agents aid = some cfg →
      cfg.user_id = u →
      (delete_agent u aid registry store).1 = .ok ∧
      (∀ kv ∈ (delete_agent u aid registry store).2.1, kv.1 ≠ aid) ∧
      (∀ kv ∈ registry, kv.1 ≠ aid →
        kv ∈ (delete_agent u aid registry store).2.1) ∧
      (∀ a ∈ (delete_agent u aid registry store).2.2.agents, a.id ≠ aid) ∧
      (∀ x ∈ (delete_agent u aid registry store).2.2.associations,
        x.agent_id ≠ aid) ∧
      (∀ s ∈ (delete_agent u aid registry store).2.2.sessions,
        s.agent_id ≠ aid) ∧
      (∀ m ∈ (delete_agent u aid registry store).2.2.messages,
        ∀ s ∈ store.sessions, s.agent_id = aid → m.session_id ≠ s.id) ∧
      (∀ y ∈ (delete_agent u aid registry store).2.2.summaries,
        ∀ s ∈ store.sessions, s.agent_id = aid → y.session_id ≠ s.id)) := by
  refine ⟨?_, ?_, ?_⟩
  · intro h
    simp [delete_agent, h]
  · intro cfg h hne
    simp [delete_agent, h, hne]
  · intro cfg h heq
    have hd : delete_agent u aid registry store =
        (.ok, shutdown_specific_agent registry aid,
          delete_agent_cascade store aid) := by
      simp [delete_agent, h, heq]
    rw [hd]
    refine ⟨rfl, ?_, ?_, ?_, ?_, ?_, ?_, ?_⟩
    · intro kv hm
      have := List.of_mem_filter hm
      simpa using this
    · intro kv hm hne
      exact List.mem_filter.mpr ⟨hm, by simpa using hne⟩
    · intro a hm
      have := List.of_mem_filter hm
      simpa using this
    · intro x hm
      have := List.of_mem_filter hm
      simpa using this
    · intro s hm
      have := List.of_mem_filter hm
      simpa using this
    · intro m hm s hs hsid
      have hall := List.of_mem_filter hm
      rw [List.all_eq_true] at hall
      have := hall s (by
        simp only [List.mem_filter]
        exact ⟨hs, by simpa using hsid⟩)
      intro hc
      simp [hc] at this
    · intro y hm s hs hsid
      have hall := List.of_mem_filter hm
      rw [List.all_eq_true] at hall
      have := hall s (by
        simp only [List.mem_filter]
        exact ⟨hs, by simpa using hsid⟩)
      intro hc
      simp [hc] at this

open AgentsRoute in
/-- Claim C9, witness: on the one-agent store, an unknown id yields 404
with nothing changed, a non-owner yields 403 with nothing changed, and
the owner's delete returns ok. -/
theorem C9_delete_agent_owner_only_witness :
    delete_agent "userA" "zz" c9Registry c9Store =
      (.notFound, c9Registry, c9Store) ∧
    delete_agent "userB" "a1" c9Registry c9Store =
      (.forbidden, c9Registry, c9Store) ∧
    (delete_agent "userA" "a1" c9Registry c9Store).1 = .ok :=
  ⟨(C9_delete_agent_owner_only "userA" "zz" c9Registry c9Store).1 rfl,
   (C9_delete_agent_owner_only "userB" "a1" c9Registry c9Store).2.1
      ⟨"a1", "userA", "Iris"⟩ rfl (by decide),
   ((C9_delete_agent_owner_only "userA" "a1" c9Registry c9Store).2.2
      ⟨"a1", "userA", "Iris"⟩ rfl rfl).1⟩

open PostgresM CustomToolAgent in
/-- Claim C10 (confirmed): `get_chat_messages` never fails on a malformed
stored message — it returns at most one output per row; a row whose
content is a plain string that does not decode as JSON comes back with
content `{"text": <that string>}`; a row whose content fails validation
is silently skipped; and every returned message stems from some row. -/
theorem C10_get_chat_messages_skips_invalid
    (parse : String → Option CustomToolAgent.Json)
    (rows : List PostgresM.MsgRow) :
    ((get_chat_messages parse rows).length ≤ rows.length) ∧
    (∀ r ∈ rows, ∀ s, r.content = PostgresM.CellVal.str s →
      parse s = none →
      process_row parse r =
        some ⟨r.id, r.session_id, r.sender_type, ⟨some s, none, none⟩,
          r.isPartial, r.message_type⟩) ∧
    (∀ r, validate_message_content (safe_content_parse parse r.content) =
        none → process_row parse r = none) ∧
    (∀ m ∈ get_chat_messages parse rows, ∃ r ∈ rows,
      process_row parse r = some m) := by
  refine ⟨?_, ?_, ?_, ?_⟩
  · exact List.length_filterMap_le _ _
  · intro r _ s hcontent hparse
    unfold process_row
    rw [hcontent]
    simp only [safe_content_parse]
    rw [hparse]
    simp [validate_message_content, jlookup]
  · intro r hval
    unfold process_row
    rw [hval]
    rfl
  · intro m hm
    rcases List.mem_filterMap.mp hm with ⟨r, hr, hpr⟩
    exact ⟨r, hr, hpr⟩

open PostgresM CustomToolAgent in
/-- Claim C10, witness: the plain-text row is returned wrapped as
`{"text": "hello"}`, the row decoding to a bare JSON number is skipped,
and the call still returns a (shorter) list. -/
theorem C10_get_chat_messages_skips_invalid_witness :
    process_row c10Parse c10RowText =
      some ⟨"m1", "s1", "user", ⟨some "hello", none, none⟩, false,
        "human"⟩ ∧
    process_row c10Parse c10RowBad = none ∧
    (get_chat_messages c10Parse [c10RowText, c10RowBad]).length ≤ 2 :=
  ⟨(C10_get_chat_messages_skips_invalid c10Parse
      [c10RowText, c10RowBad]).2.1 c10RowText (by simp) "hello" rfl rfl,
   (C10_get_chat_messages_skips_invalid c10Parse
      [c10RowText, c10RowBad]).2.2.1 c10RowBad rfl,
   (C10_get_chat_messages_skips_invalid c10Parse
      [c10RowText, c10RowBad]).1⟩
